import Mathlib

/-!
Verification of the plotting scripts of the Robbie repository
(src/plot_variables.py and src/scripts/plot_variables.py).

The development shallowly embeds the data model and the control flow of the
two scripts: tables become lists of records, the filesystem becomes the list
of file names that exist, matplotlib calls become the act of recording an
output file, and Python exceptions become an error field in the result of a
run.  Floating point measurement values are carried as rationals; no claim
depends on rounding, only on sign tests and on opaque transport of values.
-/

namespace Robbie

/-! ## Embedding of datetime.datetime.strptime with format %Y-%m-%dT%H:%M:%S

CPython compiles this format to the regular expression
group(Y) of four digits, a dash, group(m) matching 1[0-2] or 0[1-9] or [1-9],
a dash, group(d) matching 3[01] or [12] digit or 0[1-9] or [1-9], the letter T,
group(H) matching 2[0-3] or [0-1] digit or a digit, a colon, group(M) matching
[0-5] digit or a digit, a colon, group(S) matching [0-5] digit or a digit,
anchored at both ends; the matched numbers are then passed to the
datetime.datetime constructor, which additionally requires a positive year and
a day that exists in the given month.  A non-match or an invalid date raises
ValueError.  The parser below follows that description; the result is encoded
as a single natural number whose order agrees with the lexicographic order on
(year, month, day, hour, minute, second) because every component is strictly
below its radix. -/

/-- Decimal value of a digit character. -/
def digitVal (c : Char) : Nat := c.toNat - 48

/-- Parse exactly four digit characters, the %Y field. -/
def parse4Digits : List Char → Option (Nat × List Char)
  | a :: b :: c :: d :: rest =>
    if a.isDigit && b.isDigit && c.isDigit && d.isDigit then
      some ((((digitVal a) * 10 + digitVal b) * 10 + digitVal c) * 10 + digitVal d, rest)
    else none
  | _ => none

/-- Parse a numeric field of one or two digits, preferring two digits, with a
validity test for each width, mirroring the alternation in the compiled
regular expression of the corresponding strptime directive. -/
def parseField (valid2 valid1 : Nat → Bool) : List Char → Option (Nat × List Char)
  | a :: b :: rest =>
    if a.isDigit && b.isDigit && valid2 (digitVal a * 10 + digitVal b) then
      some (digitVal a * 10 + digitVal b, rest)
    else if a.isDigit && valid1 (digitVal a) then
      some (digitVal a, b :: rest)
    else none
  | a :: [] =>
    if a.isDigit && valid1 (digitVal a) then some (digitVal a, []) else none
  | [] => none

/-- Consume one expected literal character of the format string. -/
def expectChar (c : Char) : List Char → Option (List Char)
  | d :: rest => if d == c then some rest else none
  | [] => none

/-- Gregorian leap year test, as in the datetime module. -/
def isLeapYear (y : Nat) : Bool := (y % 4 == 0 && y % 100 != 0) || y % 400 == 0

/-- Number of days of a month, as validated by the datetime constructor. -/
def daysInMonth (y mo : Nat) : Nat :=
  if mo == 2 then (if isLeapYear y then 29 else 28)
  else if mo == 4 || mo == 6 || mo == 9 || mo == 11 then 30
  else 31

/-- Embedding of datetime.datetime.strptime(s, the fixed format
%Y-%m-%dT%H:%M:%S): some encoded timestamp on success, none when the string
does not match the format or denotes an invalid date (Python raises
ValueError there). -/
def strptime (s : String) : Option Nat := do
  let cs := s.data
  let (y, cs) ← parse4Digits cs
  let cs ← expectChar (Char.ofNat 45) cs
  let (mo, cs) ← parseField (fun v => 1 ≤ v && v ≤ 12) (fun v => 1 ≤ v && v ≤ 9) cs
  let cs ← expectChar (Char.ofNat 45) cs
  let (d, cs) ← parseField (fun v => 1 ≤ v && v ≤ 31) (fun v => 1 ≤ v && v ≤ 9) cs
  let cs ← expectChar (Char.ofNat 84) cs
  let (h, cs) ← parseField (fun v => v ≤ 23) (fun _ => true) cs
  let cs ← expectChar (Char.ofNat 58) cs
  let (mi, cs) ← parseField (fun v => v ≤ 59) (fun _ => true) cs
  let cs ← expectChar (Char.ofNat 58) cs
  let (se, cs) ← parseField (fun v => v ≤ 59) (fun _ => true) cs
  match cs with
  | [] =>
    if 1 ≤ y && d ≤ daysInMonth y mo then
      some (((((y * 13 + mo) * 32 + d) * 24 + h) * 60 + mi) * 60 + se)
    else none
  | _ => none

/-! ## Embedding of the Python slice tab[start::stride]

The parallel driver plot_lc_table_parallel hands worker i the keyword
arguments start=i and stride=nprocs, and plot_lc_table iterates over
ftab[start::stride], the rows with indices start, start+stride, ... that are
below the number of rows. -/

/-- Indices of the rows selected by the slice tab[start::stride] from a table
of R rows, for a positive stride. -/
def sliceIdx (R start stride : Nat) : List Nat :=
  (List.range R).filter fun j => decide (start ≤ j) && decide ((j - start) % stride = 0)

/-- Rows selected by the slice l[start::stride]. -/
def pySlice {α : Type} (l : List α) (start stride : Nat) : List α :=
  (sliceIdx l.length start stride).filterMap fun j => l[j]?

/-! ## Data model

A flux table row carries the source identifier together with the three column
families selected by name in plot_lc_table of src/scripts/plot_variables.py
(colnames starting with epoch, peak_flux and err_peak_flux); a stats table
row carries the fields that script reads.  Measurement values are rationals
standing in for the floats of the tables: the script only transports them
into the plot, it never branches on them. -/

structure FluxRow where
  uuid : String
  epochs : List String
  fluxes : List Rat
  errs : List Rat
deriving DecidableEq

structure StatsRow where
  uuid : String
  m : Rat
  md : Rat
  chisq_peak_flux : Rat
deriving DecidableEq

/-! ## Row renderer and worker loop of src/scripts/plot_variables.py -/

/-- Output path of the light curve of one source, line 85 of
src/scripts/plot_variables.py: the Python format string builds
plot_dir, a slash, the uuid and the suffix .png. -/
def fnameOf (plotDir uuid : String) : String :=
  plotDir ++ "/" ++ uuid ++ ".png"

/-- Message of the Python ValueError raised by strptime on a label that does
not match the format. -/
def valueErrorMsg : String := "ValueError: time data does not match format"

/-- Message of the Python IndexError raised by srow indexing at position 0
when the stats table has no row for the uuid. -/
def indexErrorMsg : String := "IndexError: index 0 out of range"

/-- The (epoch label, flux, error) triples of a row, line 94 of
src/scripts/plot_variables.py: Python zip truncates to the shortest input,
as List.zip does. -/
def triplesOf (row : FluxRow) : List (String × Rat × Rat) :=
  row.epochs.zip (row.fluxes.zip row.errs)

/-- Sort key of line 95: the label parsed by strptime.  At the point the key
runs, line 93 has already parsed every epoch label successfully, so the
default value of the Option is never reached on the lists the loop sorts. -/
def epochKey (s : String) : Nat := (strptime s).getD 0

/-- Ordering relation used by the sort on line 95. -/
def tripleLE (a b : String × Rat × Rat) : Prop := epochKey a.1 ≤ epochKey b.1

instance : DecidableRel tripleLE := fun a b => Nat.decLe (epochKey a.1) (epochKey b.1)

/-- The sorted (epoch, flux, error) triples of lines 94 and 95 of
src/scripts/plot_variables.py.  Python sorted is a stable sort with respect
to the key order, and a stable sort is unique, so the structural insertion
sort denotes the same list that Timsort returns. -/
def sortedTriples (row : FluxRow) : List (String × Rat × Rat) :=
  List.insertionSort tripleLE (triplesOf row)

/-- Result of one worker run of plot_lc_table: the files existing afterwards,
the plots written during the run (path plus the point sequence handed to
errorbar), and the uncaught Python exception if one was raised. -/
structure RunResult where
  fs : List String
  written : List (String × List (String × Rat × Rat))
  err : Option String
deriving DecidableEq

/-- Loop body of plot_lc_table, lines 84 to 115 of
src/scripts/plot_variables.py, over an explicit list of rows: compute the
output path; skip the row when the file exists; otherwise select the stats
rows with the same uuid, parse every epoch label (line 93, ValueError on
mismatch), sort the triples by parsed time, read the first selected stats row
(line 99, IndexError when there is none) and save the figure, creating the
file.  An exception aborts the loop, leaving the files written so far. -/
def lcLoop (stab : List StatsRow) (plotDir : String) :
    List FluxRow → List String → RunResult
  | [], fs => ⟨fs, [], none⟩
  | row :: rest, fs =>
    let fname := fnameOf plotDir row.uuid
    if fname ∈ fs then
      lcLoop stab plotDir rest fs
    else
      let srow := stab.filter fun s => s.uuid == row.uuid
      if row.epochs.all fun a => (strptime a).isSome then
        match srow.head? with
        | none => ⟨fs, [], some indexErrorMsg⟩
        | some _ =>
          let r := lcLoop stab plotDir rest (fname :: fs)
          ⟨r.fs, (fname, sortedTriples row) :: r.written, r.err⟩
      else ⟨fs, [], some valueErrorMsg⟩

/-- Embedding of plot_lc_table of src/scripts/plot_variables.py: the loop
runs over the rows of the slice ftab[start::stride]. -/
def plot_lc_table (ftab : List FluxRow) (stab : List StatsRow)
    (start stride : Nat) (plotDir : String) (fs : List String) : RunResult :=
  lcLoop stab plotDir (pySlice ftab start stride) fs

/-- Embedding of plot_lc_table_parallel of src/scripts/plot_variables.py:
worker i runs plot_lc_table with start i and stride nprocs.  The results of
pool.apply_async are never retrieved and pool.close and pool.join ignore
worker failures, so the driver returns None whatever the workers did; the
Unit result records exactly that. -/
def plot_lc_table_parallel (ftab : List FluxRow) (stab : List StatsRow)
    (lightCurveDir : String) (nprocs : Nat) (fs : List String) : Unit :=
  let _ := (List.range nprocs).map fun i =>
    plot_lc_table ftab stab i nprocs lightCurveDir fs
  ()

/-! ## Summary renderers

Two summary renderers exist.  plot_summary in src/plot_variables.py reads the
stats through the SQL query SELECT pval_peak_flux, md, abs(mean_peak_flux)
FROM stats WHERE pval_peak_flux > 0, so it filters on a strictly positive
p-value.  plot_summary_table in src/scripts/plot_variables.py reads the
columns pval_peak_flux_ks, md and mean_peak_flux of the whole table and hands
them to scatter without any row filtering; numpy log10 is applied elementwise
and keeps one plotted point per row. -/

structure SummaryRow where
  uuid : String
  pval : Rat
  md : Rat
  mean_peak_flux : Rat
deriving DecidableEq

/-- Rows returned by the SQL query of plot_summary, line 30 of
src/plot_variables.py: the WHERE clause keeps the rows with a strictly
positive p-value, the select list takes the p-value, the modulation index and
the absolute mean peak flux. -/
def plot_summary_rows (stats : List SummaryRow) : List (Rat × Rat × Rat) :=
  (stats.filter fun r => 0 < r.pval).map fun r => (r.pval, r.md, |r.mean_peak_flux|)

/-- Per-row data handed to scatter by plot_summary_table, lines 33 to 42 of
src/scripts/plot_variables.py: the three columns are read for every row of
the table and no row is dropped. -/
def plot_summary_table_points (stats : List SummaryRow) : List (Rat × Rat × Rat) :=
  stats.map fun r => (r.pval, r.md, r.mean_peak_flux)

/-! ## Command line dispatch

The main block of src/scripts/plot_variables.py defaults the worker count to
mp.cpu_count() when --cores is absent, and on the table branch prints an
error when only one of --ftable and --stable is truthy yet still calls
plot_summary_table and, under --all, plot_lc_table_parallel.  The main block
of src/plot_variables.py additionally has a database branch which reads the
undefined attributes results.name and results.dates. -/

/-- Worker count used by the main block, lines 169 and 170 of
src/scripts/plot_variables.py: the host cpu count when --cores was not
supplied, the supplied value unchanged otherwise. -/
def effectiveCores (cores : Option Int) (cpuCount : Int) : Int :=
  match cores with
  | none => cpuCount
  | some n => n

/-- Python truthiness of an argparse string option whose default is None:
None and the empty string are falsy. -/
def truthy : Option String → Bool
  | none => false
  | some s => !s.isEmpty

/-- Observable steps of the table branch of the main blocks. -/
inductive MainAction where
  | printErrorMsg
  | callSummary
  | callScheduler
  | printHelp
  | exitProg
deriving DecidableEq

/-- Embedding of lines 172 to 180 of src/scripts/plot_variables.py (the same
shape appears at lines 206 to 214 of src/plot_variables.py): when at least
one of the two table options is truthy, optionally print the error message
about the missing one, then always call plot_summary_table, then call the
parallel light curve driver when --all was given; otherwise print the help
and exit. -/
def tableMainActions (ftable stable : Option String) (allFlag : Bool) :
    List MainAction :=
  if truthy ftable || truthy stable then
    (if !(truthy ftable && truthy stable) then [MainAction.printErrorMsg] else [])
      ++ [MainAction.callSummary]
      ++ (if allFlag then [MainAction.callScheduler] else [])
  else [MainAction.printHelp, MainAction.exitProg]

/-- Destination names defined by the argument parser of
src/plot_variables.py: db, ftable, stable, plotfile and all.  The --dates
option is commented out and --cores does not exist in this file, so neither
dates nor name is a defined attribute of the parsed namespace. -/
def oldParserDests : List String := ["db", "ftable", "stable", "plotfile", "all"]

/-- Reading an attribute of the argparse namespace: an AttributeError escapes
when the destination was never defined. -/
def getattrOld (a : String) : Except String Unit :=
  if a ∈ oldParserDests then Except.ok () else Except.error ("AttributeError: " ++ a)

/-- Observable steps of the database branch of src/plot_variables.py. -/
inductive DbStep where
  | connectDb
  | plotSummaryStep
  | plotLcStep
deriving DecidableEq

/-- Embedding of the database branch, lines 199 to 205 of
src/plot_variables.py: under a truthy --dbname the code first evaluates
results.name to build the connection, then connects and plots the summary,
and under --all evaluates results.dates and plots the light curves.  The
result lists the steps performed before the first uncaught exception, if
any. -/
def oldMainDb (db : Option String) (allFlag : Bool) : List DbStep × Option String :=
  if truthy db then
    match getattrOld "name" with
    | Except.error e => ([], some e)
    | Except.ok () =>
      let steps := [DbStep.connectDb, DbStep.plotSummaryStep]
      if allFlag then
        match getattrOld "dates" with
        | Except.error e => (steps, some e)
        | Except.ok () => (steps ++ [DbStep.plotLcStep], none)
      else (steps, none)
  else ([], none)

/-! ## Concrete tables used by witnesses and counterexamples -/

/-- A flux row whose single epoch label does not match the timestamp
format. -/
def badLabelRow : FluxRow := ⟨"src1", ["not-a-date"], [1], [1]⟩

/-- A well formed flux row with two distinct epoch timestamps, stored out of
chronological order. -/
def rowDistinct : FluxRow :=
  ⟨"srcA", ["2013-02-02T00:00:00", "2013-01-01T00:00:00"], [2, 1], [1, 1]⟩

/-- The same row with its epoch columns permuted into chronological order. -/
def rowDistinctPerm : FluxRow :=
  ⟨"srcA", ["2013-01-01T00:00:00", "2013-02-02T00:00:00"], [1, 2], [1, 1]⟩

/-- A flux row with two epoch columns carrying the same timestamp label and
different fluxes. -/
def rowTie : FluxRow :=
  ⟨"srcB", ["2013-01-01T00:00:00", "2013-01-01T00:00:00"], [1, 2], [0, 0]⟩

/-- The tied row with its two epoch columns transposed. -/
def rowTiePerm : FluxRow :=
  ⟨"srcB", ["2013-01-01T00:00:00", "2013-01-01T00:00:00"], [2, 1], [0, 0]⟩

/-- A stats row matching the sources of the concrete flux rows. -/
def statsFor (u : String) : StatsRow := ⟨u, 0, 0, 0⟩

/-! ## Theorems -/

theorem mem_sliceIdx {R start stride j : Nat} :
    j ∈ sliceIdx R start stride ↔ j < R ∧ start ≤ j ∧ (j - start) % stride = 0 := by
  simp [sliceIdx, List.mem_filter, List.mem_range, and_assoc]

/-- C1: for every worker count N ≥ 1 and table of R rows, the start/stride
assignment giving worker i the row indices i, i+N, i+2N, ... partitions the
row index set: the union over the N workers is the full index set 0..R-1 and
the assignments of distinct workers are disjoint. -/
theorem worker_partition (N R : Nat) (hN : 1 ≤ N) :
    (∀ j, j < R ↔ ∃ i, i < N ∧ j ∈ sliceIdx R i N) ∧
    (∀ i₁ i₂ j, i₁ < N → i₂ < N → i₁ ≠ i₂ →
      j ∈ sliceIdx R i₁ N → j ∉ sliceIdx R i₂ N) := by
  have hkey : ∀ i j, i < N → i ≤ j → (j - i) % N = 0 → i = j % N := by
    intro i j hiN hij hmod
    obtain ⟨k, hk⟩ := Nat.dvd_of_mod_eq_zero hmod
    have hj : j = i + N * k := by rw [← hk]; omega
    rw [hj, Nat.add_mul_mod_self_left, Nat.mod_eq_of_lt hiN]
  constructor
  · intro j
    constructor
    · intro hjR
      refine ⟨j % N, Nat.mod_lt j hN, ?_⟩
      rw [mem_sliceIdx]
      refine ⟨hjR, Nat.mod_le j N, ?_⟩
      have h := Nat.div_add_mod j N
      have h2 : j - j % N = N * (j / N) := by omega
      rw [h2]
      exact Nat.mul_mod_right N _
    · rintro ⟨i, _, hmem⟩
      exact (mem_sliceIdx.mp hmem).1
  · intro i₁ i₂ j h1 h2 hne hmem1 hmem2
    rw [mem_sliceIdx] at hmem1 hmem2
    exact hne ((hkey i₁ j h1 hmem1.2.1 hmem1.2.2).trans
      (hkey i₂ j h2 hmem2.2.1 hmem2.2.2).symm)

/-- Witness for C1: with two workers and five rows, row 3 belongs to worker 1
and, by the partition theorem, not to worker 0. -/
theorem worker_partition_witness :
    3 ∈ sliceIdx 5 1 2 ∧ 3 ∉ sliceIdx 5 0 2 :=
  ⟨by decide,
   (worker_partition 2 5 (by decide)).2 1 0 3 (by decide) (by decide)
     (by decide) (by decide)⟩

/-! ### Unfolding equations of the worker loop -/

theorem lcLoop_nil (stab : List StatsRow) (d : String) (fs : List String) :
    lcLoop stab d [] fs = ⟨fs, [], none⟩ := rfl

theorem lcLoop_cons_skip (stab : List StatsRow) (d : String) (row : FluxRow)
    (rest : List FluxRow) (fs : List String) (h : fnameOf d row.uuid ∈ fs) :
    lcLoop stab d (row :: rest) fs = lcLoop stab d rest fs := by
  simp [lcLoop, h]

theorem lcLoop_cons_parse_fail (stab : List StatsRow) (d : String) (row : FluxRow)
    (rest : List FluxRow) (fs : List String) (h : fnameOf d row.uuid ∉ fs)
    (hp : (row.epochs.all fun a => (strptime a).isSome) = false) :
    lcLoop stab d (row :: rest) fs = ⟨fs, [], some valueErrorMsg⟩ := by
  simp [lcLoop, h, hp]

theorem lcLoop_cons_lookup_fail (stab : List StatsRow) (d : String) (row : FluxRow)
    (rest : List FluxRow) (fs : List String) (h : fnameOf d row.uuid ∉ fs)
    (hp : (row.epochs.all fun a => (strptime a).isSome) = true)
    (hl : (stab.filter fun s => s.uuid == row.uuid).head? = none) :
    lcLoop stab d (row :: rest) fs = ⟨fs, [], some indexErrorMsg⟩ := by
  simp [lcLoop, h, hp, hl]

theorem lcLoop_cons_write (stab : List StatsRow) (d : String) (row : FluxRow)
    (rest : List FluxRow) (fs : List String) (st : StatsRow)
    (h : fnameOf d row.uuid ∉ fs)
    (hp : (row.epochs.all fun a => (strptime a).isSome) = true)
    (hl : (stab.filter fun s => s.uuid == row.uuid).head? = some st) :
    lcLoop stab d (row :: rest) fs =
      ⟨(lcLoop stab d rest (fnameOf d row.uuid :: fs)).fs,
       (fnameOf d row.uuid, sortedTriples row)
         :: (lcLoop stab d rest (fnameOf d row.uuid :: fs)).written,
       (lcLoop stab d rest (fnameOf d row.uuid :: fs)).err⟩ := by
  simp [lcLoop, h, hp, hl]

/-- Files never disappear during a run: the loop only creates files. -/
theorem lcLoop_fs_mono (stab : List StatsRow) (d : String) :
    ∀ (rows : List FluxRow) (fs : List String) (f : String),
      f ∈ fs → f ∈ (lcLoop stab d rows fs).fs := by
  intro rows
  induction rows with
  | nil => intro fs f hf; simpa [lcLoop_nil] using hf
  | cons row rest ih =>
    intro fs f hf
    by_cases h : fnameOf d row.uuid ∈ fs
    · rw [lcLoop_cons_skip stab d row rest fs h]
      exact ih fs f hf
    · cases hp : row.epochs.all fun a => (strptime a).isSome with
      | false => rw [lcLoop_cons_parse_fail stab d row rest fs h hp]; exact hf
      | true =>
        cases hl : (stab.filter fun s => s.uuid == row.uuid).head? with
        | none => rw [lcLoop_cons_lookup_fail stab d row rest fs h hp hl]; exact hf
        | some st =>
          rw [lcLoop_cons_write stab d row rest fs st h hp hl]
          exact ih (fnameOf d row.uuid :: fs) f (List.mem_cons_of_mem _ hf)

/-- Running the loop a second time over the files left by a first run writes
nothing, changes no file and reproduces the first outcome. -/
theorem lcLoop_twice (stab : List StatsRow) (d : String) :
    ∀ (rows : List FluxRow) (fs : List String),
      lcLoop stab d rows (lcLoop stab d rows fs).fs =
        ⟨(lcLoop stab d rows fs).fs, [], (lcLoop stab d rows fs).err⟩ := by
  intro rows
  induction rows with
  | nil => intro fs; simp [lcLoop_nil]
  | cons row rest ih =>
    intro fs
    by_cases h : fnameOf d row.uuid ∈ fs
    · rw [lcLoop_cons_skip stab d row rest fs h]
      have h2 : fnameOf d row.uuid ∈ (lcLoop stab d rest fs).fs :=
        lcLoop_fs_mono stab d rest fs _ h
      rw [lcLoop_cons_skip stab d row rest _ h2]
      exact ih fs
    · cases hp : row.epochs.all fun a => (strptime a).isSome with
      | false =>
        rw [lcLoop_cons_parse_fail stab d row rest fs h hp]
        exact lcLoop_cons_parse_fail stab d row rest fs h hp
      | true =>
        cases hl : (stab.filter fun s => s.uuid == row.uuid).head? with
        | none =>
          rw [lcLoop_cons_lookup_fail stab d row rest fs h hp hl]
          exact lcLoop_cons_lookup_fail stab d row rest fs h hp hl
        | some st =>
          rw [lcLoop_cons_write stab d row rest fs st h hp hl]
          have h2 : fnameOf d row.uuid ∈
              (lcLoop stab d rest (fnameOf d row.uuid :: fs)).fs :=
            lcLoop_fs_mono stab d rest _ _ (List.mem_cons_self _ _)
          rw [lcLoop_cons_skip stab d row rest _ h2]
          exact ih (fnameOf d row.uuid :: fs)

/-- C3: the render step is idempotent.  A row whose output path already
exists is skipped, so a second run of plot_lc_table over the files left by a
first run with unchanged inputs writes no plot, leaves the files exactly as
they were, and ends the same way. -/
theorem render_idempotent (ftab : List FluxRow) (stab : List StatsRow)
    (start stride : Nat) (d : String) (fs : List String) :
    plot_lc_table ftab stab start stride d
        (plot_lc_table ftab stab start stride d fs).fs =
      ⟨(plot_lc_table ftab stab start stride d fs).fs, [],
       (plot_lc_table ftab stab start stride d fs).err⟩ :=
  lcLoop_twice stab d (pySlice ftab start stride) fs

/-- Counterexample to C5 as stated: a row whose epoch label does not match
the format raises nothing when its output file already exists, because the
existence check of line 87 runs before the parse of line 93; the worker run
completes without error. -/
theorem parse_failure_skip_cex :
    strptime "not-a-date" = none ∧
    lcLoop [] "plots" [badLabelRow] [fnameOf "plots" "src1"] =
      ⟨[fnameOf "plots" "src1"], [], none⟩ := by
  constructor
  · rfl
  · rfl

/-- C5 (amended): for every source row whose output file does not already
exist and that carries an epoch label not matching the fixed format
YYYY-MM-DDTHH:MM:SS, the renderer raises an uncaught ValueError which aborts
the processing of the remaining rows of that worker, contributing no file and
no plot beyond those already present; the parallel driver never retrieves the
outcome of a worker, so it returns None regardless of such failures. -/
theorem parse_failure_aborts (stab : List StatsRow) (d : String) (row : FluxRow)
    (rest : List FluxRow) (fs : List String) (lab : String)
    (hlab : lab ∈ row.epochs) (hbad : strptime lab = none)
    (hnew : fnameOf d row.uuid ∉ fs) :
    lcLoop stab d (row :: rest) fs = ⟨fs, [], some valueErrorMsg⟩ ∧
    ∀ (ftab : List FluxRow) (nprocs : Nat) (fs0 : List String),
      plot_lc_table_parallel ftab stab d nprocs fs0 = () := by
  have hp : (row.epochs.all fun a => (strptime a).isSome) = false := by
    rw [List.all_eq_false]
    exact ⟨lab, hlab, by simp [hbad]⟩
  exact ⟨lcLoop_cons_parse_fail stab d row rest fs hnew hp, fun _ _ _ => rfl⟩

/-- Witness for C5: a concrete worker whose first row has the malformed label
aborts at that row and leaves the following well formed row unprocessed. -/
theorem parse_failure_aborts_witness :
    lcLoop [statsFor "srcA"] "plots" [badLabelRow, rowDistinct] [] =
      ⟨[], [], some valueErrorMsg⟩ :=
  (parse_failure_aborts [statsFor "srcA"] "plots" badLabelRow [rowDistinct] []
    "not-a-date" (by decide) (by rfl) (by decide)).1

/-- Helper for C9: under the data model invariant that every source has a
matching stats row, the loop never raises the lookup IndexError. -/
theorem lcLoop_no_lookup_error (stab : List StatsRow) (d : String) :
    ∀ (rows : List FluxRow) (fs : List String),
      (∀ r ∈ rows, (stab.filter fun s => s.uuid == r.uuid) ≠ []) →
      (lcLoop stab d rows fs).err ≠ some indexErrorMsg := by
  intro rows
  induction rows with
  | nil => intro fs _; simp [lcLoop_nil]
  | cons row rest ih =>
    intro fs hall
    have hrow := hall row (List.mem_cons_self _ _)
    have hrest : ∀ r ∈ rest, (stab.filter fun s => s.uuid == r.uuid) ≠ [] :=
      fun r hr => hall r (List.mem_cons_of_mem _ hr)
    by_cases h : fnameOf d row.uuid ∈ fs
    · rw [lcLoop_cons_skip stab d row rest fs h]
      exact ih fs hrest
    · cases hp : row.epochs.all fun a => (strptime a).isSome with
      | false =>
        rw [lcLoop_cons_parse_fail stab d row rest fs h hp]
        simp [valueErrorMsg, indexErrorMsg]
      | true =>
        cases hl : (stab.filter fun s => s.uuid == row.uuid).head? with
        | none => exact absurd (List.head?_eq_none_iff.mp hl) hrow
        | some st =>
          rw [lcLoop_cons_write stab d row rest fs st h hp hl]
          exact ih (fnameOf d row.uuid :: fs) hrest

/-- C9: a processed source row whose uuid has no matching row in the stats
table makes the renderer fail with the uncaught IndexError of line 99,
aborting the rest of the worker; and whenever every row has at least its one
matching stats row, as the data model invariant demands, the lookup error
never occurs. -/
theorem stats_lookup (stab : List StatsRow) (d : String) (row : FluxRow)
    (rest : List FluxRow) (fs : List String)
    (hnew : fnameOf d row.uuid ∉ fs)
    (hp : (row.epochs.all fun a => (strptime a).isSome) = true)
    (hmiss : (stab.filter fun s => s.uuid == row.uuid) = []) :
    lcLoop stab d (row :: rest) fs = ⟨fs, [], some indexErrorMsg⟩ ∧
    ∀ (stab2 : List StatsRow) (rows : List FluxRow) (fs2 : List String),
      (∀ r ∈ rows, (stab2.filter fun s => s.uuid == r.uuid).length = 1) →
      (lcLoop stab2 d rows fs2).err ≠ some indexErrorMsg := by
  constructor
  · exact lcLoop_cons_lookup_fail stab d row rest fs hnew hp (by simp [hmiss])
  · intro stab2 rows fs2 hone
    refine lcLoop_no_lookup_error stab2 d rows fs2 fun r hr hnil => ?_
    have := hone r hr
    rw [hnil] at this
    simp at this

/-- Witness for C9: a worker over one row whose source is absent from the
stats table stops with the IndexError at that row, while the same worker
against a stats table holding the matching row raises no lookup error. -/
theorem stats_lookup_witness :
    lcLoop [] "plots" [rowDistinct] [] = ⟨[], [], some indexErrorMsg⟩ ∧
    (lcLoop [statsFor "srcA"] "plots" [rowDistinct] []).err ≠ some indexErrorMsg :=
  ⟨(stats_lookup [] "plots" rowDistinct [] [] (by decide) (by rfl) (by rfl)).1,
   (stats_lookup [] "plots" rowDistinct [] [] (by decide) (by rfl) (by rfl)).2
     [statsFor "srcA"] [rowDistinct] [] (by decide)⟩

/-- Within one plot directory the output path determines the source. -/
theorem fnameOf_inj {d u1 u2 : String} (h : fnameOf d u1 = fnameOf d u2) :
    u1 = u2 := by
  have h2 := congrArg String.data h
  simp only [fnameOf, String.data_append, List.append_assoc,
    List.append_cancel_left_eq, List.append_cancel_right_eq] at h2
  cases u1
  cases u2
  exact congrArg String.mk h2

/-- The loop never writes a file that already exists. -/
theorem lcLoop_no_rewrite (stab : List StatsRow) (d : String) :
    ∀ (rows : List FluxRow) (fs : List String) (f : String), f ∈ fs →
      f ∉ (lcLoop stab d rows fs).written.map Prod.fst := by
  intro rows
  induction rows with
  | nil => intro fs f hf; simp [lcLoop_nil]
  | cons row rest ih =>
    intro fs f hf
    by_cases h : fnameOf d row.uuid ∈ fs
    · rw [lcLoop_cons_skip stab d row rest fs h]
      exact ih fs f hf
    · cases hp : row.epochs.all fun a => (strptime a).isSome with
      | false => rw [lcLoop_cons_parse_fail stab d row rest fs h hp]; simp
      | true =>
        cases hl : (stab.filter fun s => s.uuid == row.uuid).head? with
        | none => rw [lcLoop_cons_lookup_fail stab d row rest fs h hp hl]; simp
        | some st =>
          rw [lcLoop_cons_write stab d row rest fs st h hp hl]
          have hne : f ≠ fnameOf d row.uuid := fun he => h (he ▸ hf)
          simp only [List.map_cons, List.mem_cons]
          push_neg
          exact ⟨hne, ih (fnameOf d row.uuid :: fs) f (List.mem_cons_of_mem _ hf)⟩

/-- A run that finishes without an exception leaves the light curve file of
every row of its workload in place. -/
theorem lcLoop_creates (stab : List StatsRow) (d : String) :
    ∀ (rows : List FluxRow) (fs : List String) (u : String),
      u ∈ rows.map FluxRow.uuid → (lcLoop stab d rows fs).err = none →
      fnameOf d u ∈ (lcLoop stab d rows fs).fs := by
  intro rows
  induction rows with
  | nil => intro fs u hu _; simp at hu
  | cons row rest ih =>
    intro fs u hu hok
    rw [List.map_cons, List.mem_cons] at hu
    by_cases h : fnameOf d row.uuid ∈ fs
    · rw [lcLoop_cons_skip stab d row rest fs h] at hok ⊢
      rcases hu with hu | hu
      · exact lcLoop_fs_mono stab d rest fs _ (hu ▸ h)
      · exact ih fs u hu hok
    · cases hp : row.epochs.all fun a => (strptime a).isSome with
      | false =>
        rw [lcLoop_cons_parse_fail stab d row rest fs h hp] at hok
        simp at hok
      | true =>
        cases hl : (stab.filter fun s => s.uuid == row.uuid).head? with
        | none =>
          rw [lcLoop_cons_lookup_fail stab d row rest fs h hp hl] at hok
          simp at hok
        | some st =>
          rw [lcLoop_cons_write stab d row rest fs st h hp hl] at hok ⊢
          rcases hu with hu | hu
          · exact lcLoop_fs_mono stab d rest _ _
              (hu ▸ List.mem_cons_self _ _)
          · exact ih (fnameOf d row.uuid :: fs) u hu hok

/-- Helper for C6: an exception free run starting without the file of source
u and containing u in its workload writes that file exactly once. -/
theorem lcLoop_written_count (stab : List StatsRow) (d : String) :
    ∀ (rows : List FluxRow) (fs : List String) (u : String),
      fnameOf d u ∉ fs → u ∈ rows.map FluxRow.uuid →
      (lcLoop stab d rows fs).err = none →
      ((lcLoop stab d rows fs).written.map Prod.fst).count (fnameOf d u) = 1 := by
  intro rows
  induction rows with
  | nil => intro fs u _ hu _; simp at hu
  | cons row rest ih =>
    intro fs u hnew hu hok
    rw [List.map_cons, List.mem_cons] at hu
    by_cases h : fnameOf d row.uuid ∈ fs
    · rw [lcLoop_cons_skip stab d row rest fs h] at hok ⊢
      rcases hu with hu | hu
      · exact absurd (hu ▸ h) hnew
      · exact ih fs u hnew hu hok
    · cases hp : row.epochs.all fun a => (strptime a).isSome with
      | false =>
        rw [lcLoop_cons_parse_fail stab d row rest fs h hp] at hok
        simp at hok
      | true =>
        cases hl : (stab.filter fun s => s.uuid == row.uuid).head? with
        | none =>
          rw [lcLoop_cons_lookup_fail stab d row rest fs h hp hl] at hok
          simp at hok
        | some st =>
          rw [lcLoop_cons_write stab d row rest fs st h hp hl] at hok ⊢
          simp only [List.map_cons]
          by_cases hequ : u = row.uuid
          · subst hequ
            rw [List.count_cons_self]
            have hz : fnameOf d row.uuid ∉
                (lcLoop stab d rest (fnameOf d row.uuid :: fs)).written.map
                  Prod.fst :=
              lcLoop_no_rewrite stab d rest _ _ (List.mem_cons_self _ _)
            rw [List.count_eq_zero_of_not_mem hz]
          · have hu2 : u ∈ rest.map FluxRow.uuid := hu.resolve_left hequ
            have hne : fnameOf d u ≠ fnameOf d row.uuid :=
              fun he => hequ (fnameOf_inj he)
            rw [List.count_cons_of_ne hne]
            have hnew2 : fnameOf d u ∉ fnameOf d row.uuid :: fs := by
              rw [List.mem_cons]
              push_neg
              exact ⟨hne, hnew⟩
            exact ih (fnameOf d row.uuid :: fs) u hnew2 hu2 hok

/-- C6: the output path of the row renderer is exactly the plot directory,
a slash, the uuid and the suffix .png; and an exception free run whose
workload contains source u and whose plot directory did not already hold the
file writes exactly one light curve for u, which exists at that path when the
run ends. -/
theorem output_path_per_source (stab : List StatsRow) (d u : String)
    (rows : List FluxRow) (fs : List String)
    (hnew : fnameOf d u ∉ fs) (hu : u ∈ rows.map FluxRow.uuid)
    (hok : (lcLoop stab d rows fs).err = none) :
    fnameOf d u = d ++ "/" ++ u ++ ".png" ∧
    ((lcLoop stab d rows fs).written.map Prod.fst).count (fnameOf d u) = 1 ∧
    fnameOf d u ∈ (lcLoop stab d rows fs).fs :=
  ⟨rfl, lcLoop_written_count stab d rows fs u hnew hu hok,
   lcLoop_creates stab d rows fs u hu hok⟩

/-- Witness for C6: a run over two copies of the same source writes its
light curve file once and leaves it on disk. -/
theorem output_path_per_source_witness :
    fnameOf "plots" "srcA" = "plots" ++ "/" ++ "srcA" ++ ".png" ∧
    ((lcLoop [statsFor "srcA"] "plots" [rowDistinct, rowDistinct] []).written.map
      Prod.fst).count (fnameOf "plots" "srcA") = 1 ∧
    fnameOf "plots" "srcA" ∈
      (lcLoop [statsFor "srcA"] "plots" [rowDistinct, rowDistinct] []).fs :=
  output_path_per_source [statsFor "srcA"] "plots" "srcA"
    [rowDistinct, rowDistinct] [] (by decide) (by decide) (by rfl)

/-- Counterexample to C4 as stated: two epoch columns carrying the same
timestamp label with different fluxes.  Transposing them permutes the zipped
triples, yet the stable sort keeps ties in input order, so the rendered
sequence of points differs between the two permutations. -/
theorem sort_permutation_cex :
    (triplesOf rowTiePerm).Perm (triplesOf rowTie) ∧
    sortedTriples rowTiePerm ≠ sortedTriples rowTie := by
  constructor
  · decide
  · decide

/-- C4 (amended): before rendering, the (epoch, flux, error) triples of a row
are sorted ascending by the timestamp obtained from each epoch label through
the fixed format YYYY-MM-DDTHH:MM:SS; and whenever the parsed timestamps of
the row are pairwise distinct, any permutation of the epoch columns yields
the identical sorted sequence of points.  With duplicated timestamps the
stable sort preserves storage order of the ties, so full permutation
invariance fails there. -/
theorem sort_by_time (row other : FluxRow)
    (hperm : (triplesOf other).Perm (triplesOf row))
    (hnodup : ((triplesOf row).map fun t => epochKey t.1).Nodup) :
    List.Sorted tripleLE (sortedTriples row) ∧
    sortedTriples other = sortedTriples row := by
  haveI instTot : IsTotal (String × Rat × Rat) tripleLE :=
    ⟨fun a b => Nat.le_total (epochKey a.1) (epochKey b.1)⟩
  haveI instTrans : IsTrans (String × Rat × Rat) tripleLE :=
    ⟨fun _ _ _ hab hbc => Nat.le_trans hab hbc⟩
  have hsorted : List.Sorted tripleLE (sortedTriples row) :=
    List.sorted_insertionSort tripleLE (triplesOf row)
  refine ⟨hsorted, ?_⟩
  have hsorted2 : List.Sorted tripleLE (sortedTriples other) :=
    List.sorted_insertionSort tripleLE (triplesOf other)
  have hperm1 : (sortedTriples row).Perm (triplesOf row) :=
    List.perm_insertionSort tripleLE (triplesOf row)
  have hperm2 : (sortedTriples other).Perm (triplesOf row) :=
    (List.perm_insertionSort tripleLE (triplesOf other)).trans hperm
  have hps : (sortedTriples other).Perm (sortedTriples row) :=
    hperm2.trans hperm1.symm
  have hnd1 : ((sortedTriples row).map fun t => epochKey t.1).Nodup :=
    ((hperm1.map fun t => epochKey t.1).nodup_iff).mpr hnodup
  have hnd2 : ((sortedTriples other).map fun t => epochKey t.1).Nodup :=
    ((hperm2.map fun t => epochKey t.1).nodup_iff).mpr hnodup
  have strict : ∀ (l : List (String × Rat × Rat)), List.Sorted tripleLE l →
      ((l.map fun t => epochKey t.1).Nodup) →
      l.Pairwise fun a b => epochKey a.1 < epochKey b.1 := by
    intro l hs hn
    have hn2 : l.Pairwise fun a b => epochKey a.1 ≠ epochKey b.1 :=
      List.pairwise_map.mp hn
    exact (hs.and hn2).imp fun hab => Nat.lt_of_le_of_ne hab.1 hab.2
  haveI : IsAntisymm (String × Rat × Rat)
      (fun a b => epochKey a.1 < epochKey b.1) :=
    ⟨fun a b h1 h2 => (Nat.lt_asymm h1 h2).elim⟩
  exact List.eq_of_perm_of_sorted hps
    (strict _ hsorted2 hnd2) (strict _ hsorted hnd1)

/-- Witness for C4: a concrete row with two distinct timestamps stored out of
order and its chronological permutation sort to the same point sequence. -/
theorem sort_by_time_witness :
    List.Sorted tripleLE (sortedTriples rowDistinct) ∧
    sortedTriples rowDistinctPerm = sortedTriples rowDistinct :=
  sort_by_time rowDistinct rowDistinctPerm (by decide) (by decide)

/-- Counterexample to C2 as stated: the table path summary renderer
plot_summary_table performs no p-value filtering, so a row with p-value -1 is
still handed to scatter. -/
theorem summary_filter_cex :
    (SummaryRow.mk "s1" (-1) 0 1).pval ≤ 0 ∧
    ((-1 : Rat), (0 : Rat), (1 : Rat)) ∈
      plot_summary_table_points [SummaryRow.mk "s1" (-1) 0 1] := by
  constructor
  · decide
  · decide

/-- C2 (amended): only the database path summary renderer plot_summary
filters on the p-value: its SQL WHERE clause keeps exactly the rows with a
strictly positive p-value, and everything it plots stems from such a row.
The table path renderer plot_summary_table keeps every row of the statistics
table, one plotted point per row, with no exclusion of rows whose p-value is
nonpositive. -/
theorem summary_filter (stats : List SummaryRow) :
    (∀ r, r ∈ stats → 0 < r.pval →
      (r.pval, r.md, |r.mean_peak_flux|) ∈ plot_summary_rows stats) ∧
    (∀ p, p ∈ plot_summary_rows stats →
      ∃ r, r ∈ stats ∧ 0 < r.pval ∧ p = (r.pval, r.md, |r.mean_peak_flux|)) ∧
    (plot_summary_table_points stats).length = stats.length ∧
    (∀ r, r ∈ stats →
      (r.pval, r.md, r.mean_peak_flux) ∈ plot_summary_table_points stats) := by
  refine ⟨?_, ?_, ?_, ?_⟩
  · intro r hr hpos
    exact List.mem_map_of_mem _ (List.mem_filter.mpr ⟨hr, by simpa using hpos⟩)
  · intro p hp
    rcases List.mem_map.mp hp with ⟨r, hr, hrp⟩
    rcases List.mem_filter.mp hr with ⟨hrs, hrpos⟩
    exact ⟨r, hrs, by simpa using hrpos, hrp.symm⟩
  · simp [plot_summary_table_points]
  · intro r hr
    exact List.mem_map_of_mem _ hr

/-- Witness for C2: a table holding one positive row and one negative row;
the database path keeps the positive row, and, by the length and membership
clauses, the table path keeps both rows including the negative one. -/
theorem summary_filter_witness :
    ((1 : Rat), (0 : Rat), |(3 : Rat)|) ∈
      plot_summary_rows [SummaryRow.mk "a" 1 0 3, SummaryRow.mk "b" (-1) 0 1] ∧
    ((-1 : Rat), (0 : Rat), (1 : Rat)) ∈
      plot_summary_table_points
        [SummaryRow.mk "a" 1 0 3, SummaryRow.mk "b" (-1) 0 1] :=
  ⟨(summary_filter [SummaryRow.mk "a" 1 0 3, SummaryRow.mk "b" (-1) 0 1]).1
      (SummaryRow.mk "a" 1 0 3) (by decide) (by decide),
   (summary_filter [SummaryRow.mk "a" 1 0 3, SummaryRow.mk "b" (-1) 0 1]).2.2.2
      (SummaryRow.mk "b" (-1) 0 1) (by decide)⟩

/-- C7: when --cores is absent the scheduler uses the host cpu count, and
when it is supplied the value is used unchanged. -/
theorem cores_default :
    (∀ c : Int, effectiveCores none c = c) ∧
    ∀ n c : Int, effectiveCores (some n) c = n :=
  ⟨fun _ => rfl, fun _ _ => rfl⟩

/-- C8: when exactly one of the two table options is truthy, the main block
prints the error message and then continues: it still calls the summary
renderer and, exactly when --all is set, the parallel light curve scheduler;
it does not reach the help-and-exit branch. -/
theorem single_arg_continue (ftable stable : Option String) (allFlag : Bool)
    (h : truthy ftable ≠ truthy stable) :
    tableMainActions ftable stable allFlag =
      MainAction.printErrorMsg :: MainAction.callSummary ::
        (if allFlag then [MainAction.callScheduler] else []) ∧
    MainAction.exitProg ∉ tableMainActions ftable stable allFlag := by
  have h1 : (truthy ftable || truthy stable) = true := by
    cases hf : truthy ftable <;> cases hs : truthy stable <;> simp_all
  have h2 : (truthy ftable && truthy stable) = false := by
    cases hf : truthy ftable <;> cases hs : truthy stable <;> simp_all
  have he : tableMainActions ftable stable allFlag =
      MainAction.printErrorMsg :: MainAction.callSummary ::
        (if allFlag then [MainAction.callScheduler] else []) := by
    simp [tableMainActions, h1, h2]
  refine ⟨he, ?_⟩
  rw [he]
  cases allFlag <;> decide

/-- Witness for C8: only the flux table is supplied and --all is set; the
error is printed, the summary renderer is still invoked and the scheduler is
launched, with no exit. -/
theorem single_arg_continue_witness :
    tableMainActions (some "flux.fits") none true =
      MainAction.printErrorMsg :: MainAction.callSummary ::
        (if true then [MainAction.callScheduler] else []) ∧
    MainAction.exitProg ∉ tableMainActions (some "flux.fits") none true :=
  single_arg_continue (some "flux.fits") none true (by decide)

/-- C10: with --dbname supplied, the database code path of
src/plot_variables.py reads the attribute name, which the argument parser
never defines (the database argument is stored under db and the --dates
option is commented out), so the run dies with an AttributeError before any
plotting step; name and dates are indeed outside the defined destinations. -/
theorem db_path_attribute_error (s : String) (allFlag : Bool)
    (hs : s.isEmpty = false) :
    oldMainDb (some s) allFlag = ([], some "AttributeError: name") ∧
    "name" ∉ oldParserDests ∧ "dates" ∉ oldParserDests := by
  refine ⟨?_, by decide, by decide⟩
  have ht : truthy (some s) = true := by simp [truthy, hs]
  have hname : getattrOld "name" = Except.error "AttributeError: name" := by
    rw [getattrOld, if_neg (by decide)]
    rfl
  simp [oldMainDb, ht, hname]

/-- Witness for C10: the concrete invocation with database file robbie.db
fails with the AttributeError and performs no plotting step. -/
theorem db_path_attribute_error_witness :
    oldMainDb (some "robbie.db") true = ([], some "AttributeError: name") ∧
    "name" ∉ oldParserDests ∧ "dates" ∉ oldParserDests :=
  db_path_attribute_error "robbie.db" true (by decide)

end Robbie
